import Mathlib

/-!
Formal model of `tensorflow/contrib/tensorrt/convert/convert_nodes.h`
(TensorFlow-to-TensorRT converter interface).

The repository provides only the header; inline member bodies are embedded
directly from the header text.  For the functions whose bodies live in
`convert_nodes.cc` (absent from the repository), the model follows the
header's documentation comments, as noted on each definition.
-/

namespace TFTRT

/-- Status of a TensorFlow operation (`tensorflow::Status`): ok or an error
with a message. -/
inductive Status where
  | ok : Status
  | error (msg : String) : Status
deriving Repr, DecidableEq

/-- Whether a status is the ok status. -/
def Status.isOk : Status → Bool
  | .ok => true
  | .error _ => false

/-- TensorFlow data types (the subset relevant to the converter). -/
inductive DataType where
  | DT_FLOAT
  | DT_HALF
  | DT_INT32
  | DT_INT8
deriving Repr, DecidableEq

/-- `nvinfer1::Dims`: a list of dimension sizes (`nbDims` is the length;
`type[]` is unused, per the header comment on `TRT_ShapedWeights::shape_`). -/
structure Dims where
  d : List Int
deriving Repr, DecidableEq

/-- `TrtDimsNumElements`: product of all dimension sizes. -/
def TrtDimsNumElements (dims : Dims) : Int :=
  dims.d.foldl (· * ·) 1

/-- `tensorflow::Graph::kControlSlot` (value from TensorFlow's `graph.h`,
which is outside this repository: the control-edge slot is `-1`). -/
def kControlSlot : Int := -1

/-- `kInputPHName`: name prefix of placeholder nodes added for input edges
(`InputPH_*`, per the header comment on `ConvertSegmentToGraphDef`). -/
def kInputPHName : String := "InputPH_"

/-- `kOutputPHName`: name prefix of identity nodes added for output edges
(`OutputPH_*`, per the header comment on `ConvertSegmentToGraphDef`). -/
def kOutputPHName : String := "OutputPH_"

/-- `EngineConnection`: one edge crossing the boundary of a TRT segment. -/
structure EngineConnection where
  outside_node_name : String
  outside_id : Int
  outside_port : Int
  inside_node_name : String
  inside_id : Int
  inside_port : Int
  is_input_edge : Bool
  port_number : Int
deriving Repr, DecidableEq

/-- The non-control-edge constructor of `EngineConnection`. -/
def EngineConnection.mkNonControl (outside : String) (out_id out_port : Int)
    (inside : String) (in_id in_port : Int) (input_edge : Bool) (port : Int) :
    EngineConnection :=
  { outside_node_name := outside
    outside_id := out_id
    outside_port := out_port
    inside_node_name := inside
    inside_id := in_id
    inside_port := in_port
    is_input_edge := input_edge
    port_number := port }

/-- The control-edge constructor of `EngineConnection`: ports are all set to
`Graph::kControlSlot`. -/
def EngineConnection.mkControl (outside : String) (out_id : Int)
    (inside : String) (in_id : Int) (input_edge : Bool) : EngineConnection :=
  { outside_node_name := outside
    outside_id := out_id
    outside_port := kControlSlot
    inside_node_name := inside
    inside_id := in_id
    inside_port := kControlSlot
    is_input_edge := input_edge
    port_number := kControlSlot }

/-- `EngineConnection::is_control_edge`: true iff `port_number` is the
control slot. -/
def EngineConnection.is_control_edge (c : EngineConnection) : Bool :=
  c.port_number == kControlSlot

/-- A tensor reference appearing in a `NodeDef`'s input list
(`"name:port"` in the proto text; a control input has port `kControlSlot`). -/
structure TensorId where
  node : String
  port : Int
deriving Repr, DecidableEq

/-- A `tensorflow::NodeDef`: name, op type, and input tensor references. -/
structure NodeDef where
  name : String
  op : String
  input : List TensorId
deriving Repr, DecidableEq

/-- A `tensorflow::GraphDef`: a list of node definitions. -/
structure GraphDef where
  node : List NodeDef
deriving Repr, DecidableEq

/-- `EngineInfo::EngineType`. -/
inductive EngineType where
  | TRTStatic
  | TRTDynamic
deriving Repr, DecidableEq

/-- Precision mode `FP32MODE` (the converter's precision-mode constants are
declared outside this header; `FP32MODE` is the 32-bit-float mode, value 0). -/
def FP32MODE : Int := 0

/-- Precision mode `FP16MODE`. -/
def FP16MODE : Int := 1

/-- Precision mode `INT8MODE`. -/
def INT8MODE : Int := 2

/-- `EngineInfo`: metadata of one engine to be created for a segment. -/
structure EngineInfo where
  engine_name : String
  device : String
  segment_graph_def : GraphDef
  connections : List EngineConnection
  engine_type : EngineType
  max_workspace_size_bytes : Int
  maximum_cached_engines : Int
  cached_engine_batches : List Int
  precision_mode : Int
deriving Repr, DecidableEq

/-- The default constructor `EngineInfo::EngineInfo()`: sets
`engine_type` to `TRTStatic`, `max_workspace_size_bytes` to `0` and
`precision_mode` to `FP32MODE`; the remaining members are value-initialized
(strings and vectors empty; `maximum_cached_engines` is left indeterminate in
C++ and is taken as a parameter here so the model fixes no value for it). -/
def EngineInfo.default (maximum_cached_engines : Int) : EngineInfo :=
  { engine_name := ""
    device := ""
    segment_graph_def := { node := [] }
    connections := []
    engine_type := EngineType.TRTStatic
    max_workspace_size_bytes := 0
    maximum_cached_engines := maximum_cached_engines
    cached_engine_batches := []
    precision_mode := FP32MODE }

/-- An edge of a `tensorflow::Graph`: source node id, source output port,
destination node id, destination input port. -/
structure Edge where
  src : Int
  src_output : Int
  dst : Int
  dst_input : Int
deriving Repr, DecidableEq

/-- `tensorflow::Edge::IsControlEdge`: an edge is a control edge iff its
source output port is `kControlSlot`. -/
def Edge.IsControlEdge (e : Edge) : Bool :=
  e.src_output == kControlSlot

/-- A node of a `tensorflow::Graph`: an id together with its `NodeDef`. -/
structure GNode where
  id : Int
  def_ : NodeDef
deriving Repr, DecidableEq

/-- `tensorflow::Node::name`. -/
def GNode.name (n : GNode) : String :=
  n.def_.name

/-- A `tensorflow::Graph`: nodes and edges. -/
structure Graph where
  nodes : List GNode
  edges : List Edge
deriving Repr, DecidableEq

/-- `tensorflow::Graph::FindNodeId`: the node with the given id, if any. -/
def Graph.FindNodeId (g : Graph) (id : Int) : Option GNode :=
  g.nodes.find? (fun n => n.id == id)

/-- The name of the node with the given id, if any. -/
def nodeNameOf (g : Graph) (id : Int) : Option String :=
  (g.FindNodeId id).map GNode.name

/-- Whether the graph has a (non-control) data edge from node `i` to
node `j`. -/
def hasDataEdge (g : Graph) (i j : Int) : Bool :=
  g.edges.any (fun e => !e.IsControlEdge && e.src == i && e.dst == j)

/-- Whether the graph has a (non-control) data edge from the node named `a`
to the node named `b`. -/
def hasDataEdgeByName (g : Graph) (a b : String) : Bool :=
  g.edges.any (fun e =>
    !e.IsControlEdge && nodeNameOf g e.src == some a && nodeNameOf g e.dst == some b)

/-- A list of node ids is sorted in topological order: no data edge points
from a later to an earlier entry. -/
def TopoSortedIds (g : Graph) (ids : List Int) : Prop :=
  ids.Pairwise (fun i j => hasDataEdge g j i = false)

/-- A list of node definitions is sorted in topological order with respect to
the graph's data edges (matched by node name): no data edge points from a
later to an earlier nodedef. -/
def TopoSortedDefs (g : Graph) (defs : List NodeDef) : Prop :=
  defs.Pairwise (fun x y => hasDataEdgeByName g y.name x.name = false)

instance (g : Graph) (ids : List Int) : Decidable (TopoSortedIds g ids) :=
  List.instDecidablePairwise _

instance (g : Graph) (defs : List NodeDef) : Decidable (TopoSortedDefs g defs) :=
  List.instDecidablePairwise _

/-- `tensorflow::grappler::GraphProperties` (modelled as inferred shapes per
tensor name; the converter only reads it to annotate shapes, which no claim
here depends on). -/
structure GraphProperties where
  shapes : List (String × Dims)
deriving Repr, DecidableEq

/-- Whether `pre` is a prefix of string `s` (character-list prefix test). -/
def strBegins (pre s : String) : Bool :=
  s.data.take pre.data.length == pre.data

/-- Whether a nodedef is one of the placeholder/identity nodes added for the
segment boundary (`InputPH_*` / `OutputPH_*`). -/
def NodeDef.isBoundaryPH (nd : NodeDef) : Bool :=
  strBegins kInputPHName nd.name || strBegins kOutputPHName nd.name

/-- The input edges of the segment `ids`: non-control edges into a segment
node from a node outside the segment, listed following the order of `ids`. -/
def segmentInputEdges (g : Graph) (ids : List Int) : List Edge :=
  (ids.map (fun id => g.edges.filter (fun e =>
    e.dst == id && decide (e.src ∉ ids) && !e.IsControlEdge))).flatten

/-- The output edges of the segment `ids`: non-control edges out of a segment
node into a node outside the segment, listed following the order of `ids`. -/
def segmentOutputEdges (g : Graph) (ids : List Int) : List Edge :=
  (ids.map (fun id => g.edges.filter (fun e =>
    e.src == id && decide (e.dst ∉ ids) && !e.IsControlEdge))).flatten

/-- The control edges crossing the boundary of the segment `ids` (in either
direction), listed following the order of `ids`. -/
def segmentControlEdges (g : Graph) (ids : List Int) : List Edge :=
  (ids.map (fun id => g.edges.filter (fun e =>
    e.IsControlEdge &&
      ((e.dst == id && decide (e.src ∉ ids)) || (e.src == id && decide (e.dst ∉ ids)))))).flatten

/-- The engine input port assigned to input edge `e`: the index of its source
tensor `(src, src_output)` among the distinct source tensors of the segment's
input edges (equal source tensors share one port). -/
def inputPortOf (inputEdges : List Edge) (e : Edge) : Int :=
  ((inputEdges.map (fun x => (x.src, x.src_output))).dedup).indexOf (e.src, e.src_output)

/-- The engine output port assigned to output edge `e`: the index of its
inside tensor `(src, src_output)` among the distinct inside tensors of the
segment's output edges. -/
def outputPortOf (outputEdges : List Edge) (e : Edge) : Int :=
  ((outputEdges.map (fun x => (x.src, x.src_output))).dedup).indexOf (e.src, e.src_output)

/-- The `EngineConnection` for a non-control input edge. -/
def toInputConn (g : Graph) (inputEdges : List Edge) (e : Edge) : EngineConnection :=
  EngineConnection.mkNonControl ((nodeNameOf g e.src).getD "") e.src e.src_output
    ((nodeNameOf g e.dst).getD "") e.dst e.dst_input true (inputPortOf inputEdges e)

/-- The `EngineConnection` for a non-control output edge (the inside node is
the edge's source). -/
def toOutputConn (g : Graph) (outputEdges : List Edge) (e : Edge) : EngineConnection :=
  EngineConnection.mkNonControl ((nodeNameOf g e.dst).getD "") e.dst e.dst_input
    ((nodeNameOf g e.src).getD "") e.src e.src_output false (outputPortOf outputEdges e)

/-- The `EngineConnection` for a control edge crossing the segment boundary:
an input control edge if its destination is inside the segment. -/
def toControlConn (g : Graph) (ids : List Int) (e : Edge) : EngineConnection :=
  if e.dst ∈ ids then
    EngineConnection.mkControl ((nodeNameOf g e.src).getD "") e.src
      ((nodeNameOf g e.dst).getD "") e.dst true
  else
    EngineConnection.mkControl ((nodeNameOf g e.dst).getD "") e.dst
      ((nodeNameOf g e.src).getD "") e.src false

/-- Modelled from the spec: the builder of `EngineInfo::connections` (it lives
in `convert_graph.cc`, which is absent from the repository).  Per the header
comment on `EngineInfo::connections`, non-control input connections are
ordered so that the segment nodes they connect to follow the (topologically
sorted) order of `ids`, and non-control connections carry no duplicates, so
duplicate crossing edges are collapsed (`List.dedup`) and ports are shared
between equal source tensors. -/
def GetEngineConnections (g : Graph) (ids : List Int) : List EngineConnection :=
  let ie := (segmentInputEdges g ids).dedup
  let oe := (segmentOutputEdges g ids).dedup
  let ce := segmentControlEdges g ids
  ie.map (toInputConn g ie) ++ oe.map (toOutputConn g oe) ++ ce.map (toControlConn g ids)

/-- The non-control connections of a connection vector. -/
def nonControlConns (conns : List EngineConnection) : List EngineConnection :=
  conns.filter (fun c => !c.is_control_edge)

/-- The non-control input connections of a connection vector. -/
def inputConnsOf (conns : List EngineConnection) : List EngineConnection :=
  conns.filter (fun c => c.is_input_edge && !c.is_control_edge)

/-- The non-control output connections of a connection vector. -/
def outputConnsOf (conns : List EngineConnection) : List EngineConnection :=
  conns.filter (fun c => !c.is_input_edge && !c.is_control_edge)

/-- The position, in the segment's node-id list, of the segment node a
connection connects to. -/
def posInSegment (ids : List Int) (c : EngineConnection) : Nat :=
  ids.indexOf c.inside_id

/-- Rewrites one input of a segment node: an input produced outside the
segment is redirected to the placeholder of its connection's port. -/
def rewriteInput (subgraph_node_names : List String)
    (connections : List EngineConnection) (t : TensorId) : TensorId :=
  if subgraph_node_names.contains t.node then t
  else
    match connections.find? (fun c =>
      c.is_input_edge && !c.is_control_edge &&
        c.outside_node_name == t.node && c.outside_port == t.port) with
    | some c => { node := kInputPHName ++ toString c.port_number, port := 0 }
    | none => t

/-- Modelled from the spec: `ConvertSegmentToGraphDef` (its body lives in
`convert_nodes.cc`, absent from the repository).  Per the header's
documentation comment: it constructs a graphdef from the segment, adding a
placeholder node (`InputPH_*`) for each non-control input connection's port
and an identity node (`OutputPH_*`) for each non-control output connection's
port, while the segment's own nodedefs are emitted following
`subgraph_node_ids` (which must be topologically sorted), with their
out-of-segment inputs redirected to the placeholders.  `graph_properties` is
only used in the original to annotate shapes, and the computed common scope
is not modelled (returned empty).  The pieces are the definitions below;
this one lists the distinct ports of the non-control input connections. -/
def segmentInputPorts (connections : List EngineConnection) : List Int :=
  ((inputConnsOf connections).map (fun c => c.port_number)).dedup

/-- The distinct ports of the non-control output connections. -/
def segmentOutputPorts (connections : List EngineConnection) : List Int :=
  ((outputConnsOf connections).map (fun c => c.port_number)).dedup

/-- The placeholder nodes added for the segment's input ports. -/
def segmentPlaceholders (connections : List EngineConnection) : List NodeDef :=
  (segmentInputPorts connections).map (fun p =>
    { name := kInputPHName ++ toString p, op := "Placeholder", input := [] })

/-- The identity nodes added for the segment's output ports, each reading the
inside tensor of its port's connection. -/
def segmentIdentities (connections : List EngineConnection) : List NodeDef :=
  (segmentOutputPorts connections).filterMap (fun p =>
    ((outputConnsOf connections).find? (fun c => c.port_number == p)).map (fun c =>
      { name := kOutputPHName ++ toString p, op := "Identity",
        input := [{ node := c.inside_node_name, port := c.inside_port }] }))

/-- The segment's own nodedefs, emitted following `subgraph_node_ids`, with
out-of-segment inputs redirected to the placeholders. -/
def segmentBody (graph : Graph) (subgraph_node_names : List String)
    (subgraph_node_ids : List Int) (connections : List EngineConnection) :
    List NodeDef :=
  subgraph_node_ids.filterMap (fun id =>
    (graph.FindNodeId id).map (fun n =>
      { n.def_ with input := n.def_.input.map (rewriteInput subgraph_node_names connections) }))

def ConvertSegmentToGraphDef (graph : Graph) (graph_properties : GraphProperties)
    (subgraph_node_names : List String) (subgraph_node_ids : List Int)
    (connections : List EngineConnection) : Status × GraphDef × String :=
  (Status.ok,
   { node := segmentPlaceholders connections
       ++ segmentBody graph subgraph_node_names subgraph_node_ids connections
       ++ segmentIdentities connections },
   "")

/-- An `nvinfer1::ITensor`: a tensor of the TRT network, identified by an id
and carrying its dimensions (`getDimensions`). -/
structure ITensor where
  id : Nat
  dims : Dims
deriving Repr, DecidableEq

/-- A (possibly null) `nvinfer1::ITensor*`. -/
abbrev ITensorPtr := Option ITensor

/-- `TRT_ShapedWeights`: a typed, shaped weight block; `values_` points into
the weight store (`none` models a null pointer). -/
structure TRT_ShapedWeights where
  shape_ : Dims
  type_ : DataType
  values_ : Option Nat
deriving Repr, DecidableEq

/-- `TRT_ShapedWeights::count`: the number of elements, from the shape. -/
def TRT_ShapedWeights.count (w : TRT_ShapedWeights) : Int :=
  TrtDimsNumElements w.shape_

/-- `TRT_TensorOrWeights`: the tagged union of a tensor pointer and a weight
block, discriminated by `is_tensor_`. -/
structure TRT_TensorOrWeights where
  tensor_ : ITensorPtr
  weights_ : TRT_ShapedWeights
  is_tensor_ : Bool
deriving Repr, DecidableEq

/-- The `TRT_TensorOrWeights(nvinfer1::ITensor*)` constructor: stores the
tensor pointer and sets the discriminant to tensor. -/
def TRT_TensorOrWeights.mkTensor (tensor : ITensorPtr) : TRT_TensorOrWeights :=
  { tensor_ := tensor
    weights_ := { shape_ := { d := [] }, type_ := DataType.DT_FLOAT, values_ := none }
    is_tensor_ := true }

/-- The `TRT_TensorOrWeights(const TRT_ShapedWeights&)` constructor: stores
the weights and sets the discriminant to weights. -/
def TRT_TensorOrWeights.mkWeights (weights : TRT_ShapedWeights) : TRT_TensorOrWeights :=
  { tensor_ := none
    weights_ := weights
    is_tensor_ := false }

/-- `TRT_TensorOrWeights::is_tensor`. -/
def TRT_TensorOrWeights.is_tensor (x : TRT_TensorOrWeights) : Bool :=
  x.is_tensor_

/-- `TRT_TensorOrWeights::is_weights`: the negation of the discriminant. -/
def TRT_TensorOrWeights.is_weights (x : TRT_TensorOrWeights) : Bool :=
  !x.is_tensor_

/-- `TRT_TensorOrWeights::tensor`: `CHECK(is_tensor())` then return the
pointer; `none` models the aborting branch of the `CHECK`. -/
def TRT_TensorOrWeights.tensor (x : TRT_TensorOrWeights) : Option ITensorPtr :=
  if x.is_tensor then some x.tensor_ else none

/-- `TRT_TensorOrWeights::weights`: `CHECK(is_weights())` then return the
weights; `none` models the aborting branch of the `CHECK`. -/
def TRT_TensorOrWeights.weights (x : TRT_TensorOrWeights) : Option TRT_ShapedWeights :=
  if x.is_weights then some x.weights_ else none

/-- `TRT_TensorOrWeights::shape`: the tensor's dimensions when it holds a
tensor, otherwise the weights' shape. -/
def TRT_TensorOrWeights.shape (x : TRT_TensorOrWeights) : Dims :=
  if x.is_tensor_ then
    match x.tensor_ with
    | some t => t.dims
    | none => { d := [] }
  else x.weights_.shape_

/-- An `nvinfer1::INetworkDefinition`: the network inputs plus the number of
layers added so far (each added layer yields a fresh output tensor). -/
structure INetworkDefinition where
  inputs : List (String × DataType × Dims)
  num_layers : Nat
deriving Repr, DecidableEq

/-- Adds a shuffle (reshape/transpose) layer to the network, returning the
layer's output tensor with the given dimensions. -/
def INetworkDefinition.addShuffleLayer (net : INetworkDefinition) (dims : Dims) :
    ITensor × INetworkDefinition :=
  ({ id := net.num_layers, dims := dims }, { net with num_layers := net.num_layers + 1 })

/-- The read-only configuration of a `Converter` visible to op converters:
`fp16_` and `max_batch_size_` are private members with no mutating member
function, so op converters can only read them (through `IsFP16` and
`GetMaxBatchSize`). -/
structure ConverterEnv where
  fp16_ : Bool
  max_batch_size_ : Int
deriving Repr, DecidableEq

/-- The mutable part of a `Converter` that op converters may update: the
symbol table `trt_tensors_`, the network under construction, and the weight
store. -/
structure ConverterMut where
  trt_tensors_ : List (String × TRT_TensorOrWeights)
  trt_network_ : INetworkDefinition
  weight_store_ : List TRT_ShapedWeights

/-- `Converter::OpConverter`: a per-op-type conversion function taking the
converter (read-only configuration and mutable part), the node and its
inputs, and producing a status, the node's outputs and the updated mutable
part. -/
def OpConverter : Type :=
  ConverterEnv → ConverterMut → NodeDef → List TRT_TensorOrWeights →
    Status × List TRT_TensorOrWeights × ConverterMut

/-- `Converter`: the TF-to-TRT conversion state. -/
structure Converter where
  op_registry_ : List (String × OpConverter)
  plugin_converter_ : OpConverter
  trt_tensors_ : List (String × TRT_TensorOrWeights)
  trt_network_ : INetworkDefinition
  weight_store_ : List TRT_ShapedWeights
  fp16_ : Bool
  max_batch_size_ : Int

/-- `Converter::IsFP16`. -/
def Converter.IsFP16 (c : Converter) : Bool :=
  c.fp16_

/-- `Converter::GetMaxBatchSize`. -/
def Converter.GetMaxBatchSize (c : Converter) : Int :=
  c.max_batch_size_

/-- The read-only configuration of a converter. -/
def Converter.env (c : Converter) : ConverterEnv :=
  { fp16_ := c.fp16_, max_batch_size_ := c.max_batch_size_ }

/-- The mutable part of a converter. -/
def Converter.mutOf (c : Converter) : ConverterMut :=
  { trt_tensors_ := c.trt_tensors_
    trt_network_ := c.trt_network_
    weight_store_ := c.weight_store_ }

/-- Writes back the mutable part of a converter. -/
def Converter.withMut (c : Converter) (m : ConverterMut) : Converter :=
  { c with
    trt_tensors_ := m.trt_tensors_
    trt_network_ := m.trt_network_
    weight_store_ := m.weight_store_ }

/-- The key under which a tensor is stored in `trt_tensors_`: the bare node
name for output 0, `"name:port"` otherwise. -/
def tensorIdName (t : TensorId) : String :=
  if t.port == 0 then t.node else t.node ++ ":" ++ toString t.port

/-- Looks up a name in the converter's symbol table `trt_tensors_`. -/
def Converter.lookupTensor (c : Converter) (name : String) : Option TRT_TensorOrWeights :=
  (c.trt_tensors_.find? (fun p => p.1 == name)).map Prod.snd

/-- Modelled from the spec: the body of `Converter::GetInputs` lives in
`convert_nodes.cc` (absent).  It resolves each (non-control) input of the
node in the symbol table, failing on an unknown name. -/
def Converter.getInputsList (c : Converter) : List TensorId → Except String (List TRT_TensorOrWeights)
  | [] => Except.ok []
  | t :: rest =>
    if t.port == kControlSlot then c.getInputsList rest
    else
      match c.lookupTensor (tensorIdName t) with
      | none => Except.error ("Unknown input tensor " ++ tensorIdName t)
      | some x => (c.getInputsList rest).map (fun l => x :: l)

/-- `Converter::GetInputs` (status-and-output form of `getInputsList`). -/
def Converter.GetInputs (c : Converter) (node_def : NodeDef) :
    Status × List TRT_TensorOrWeights :=
  match c.getInputsList node_def.input with
  | Except.ok l => (Status.ok, l)
  | Except.error m => (Status.error m, [])

/-- Names an op converter's outputs after the node (`name` for output 0,
`"name:i"` otherwise) and inserts them into the symbol table, failing when a
name is already bound. -/
def Converter.insertOutputs (c : Converter) (node_name : String) (i : Nat) :
    List TRT_TensorOrWeights → Status × Converter
  | [] => (Status.ok, c)
  | x :: rest =>
    let output_name := if i == 0 then node_name else node_name ++ ":" ++ toString i
    if (c.lookupTensor output_name).isSome then
      (Status.error ("Aborts conversion: tensor already exists " ++ output_name), c)
    else
      Converter.insertOutputs
        { c with trt_tensors_ := c.trt_tensors_ ++ [(output_name, x)] }
        node_name (i + 1) rest

/-- Applies an op converter to a node and its resolved inputs: the converter
runs on the converter state, and on success its outputs are named after the
node and recorded in the symbol table. -/
def Converter.applyOpConverter (c : Converter) (node_def : NodeDef)
    (oc : OpConverter) (inputs : List TRT_TensorOrWeights) : Status × Converter :=
  match oc c.env c.mutOf node_def inputs with
  | (Status.error m, _, _) => (Status.error m, c)
  | (Status.ok, outputs, m) =>
    (c.withMut m).insertOutputs node_def.name 0 outputs

/-- Modelled from the spec: the body of `Converter::ConvertNode` lives in
`convert_nodes.cc` (absent).  Per the spec's description of the per-op-type
dispatch table: the node's inputs are resolved, the op-type string is looked
up in `op_registry_` (the plugin converter handles ops known to the plugin
factory, whose state is external and passed as `isPlugin`), an unregistered
op is an error, and otherwise the registered converter runs on the node's
inputs and its outputs are recorded in the symbol table. -/
def Converter.ConvertNode (isPlugin : String → Bool) (c : Converter)
    (node_def : NodeDef) : Status × Converter :=
  match c.getInputsList node_def.input with
  | Except.error m => (Status.error m, c)
  | Except.ok inputs =>
    let oc? : Option OpConverter :=
      if isPlugin node_def.op then some c.plugin_converter_
      else (c.op_registry_.find? (fun p => p.1 == node_def.op)).map Prod.snd
    match oc? with
    | none => (Status.error ("No converter registered for op: " ++ node_def.op), c)
    | some oc => c.applyOpConverter node_def oc inputs

/-- `Converter::AddInputTensor`: binds `name` to the given input tensor in
the symbol table, failing when the name is already bound. -/
def Converter.AddInputTensor (c : Converter) (name : String) (tensor : ITensorPtr) :
    Status × Converter :=
  if (c.lookupTensor name).isSome then
    (Status.error ("Input tensor already exists for " ++ name), c)
  else
    (Status.ok,
      { c with trt_tensors_ := c.trt_tensors_ ++ [(name, TRT_TensorOrWeights.mkTensor tensor)] })

/-- Modelled from the spec: the body of `Converter::TransposeTensor` lives in
`convert_nodes.cc` (absent).  It permutes the non-batch dimensions of the
input tensor with a shuffle layer; the permutation must cover all dimensions
including the batch dimension, and must keep the batch dimension first. -/
def Converter.TransposeTensor (c : Converter) (input_tensor : ITensorPtr)
    (order_with_batch_dim : List Int) : Status × ITensorPtr × Converter :=
  match input_tensor with
  | none => (Status.error "Null tensor", none, c)
  | some t =>
    if order_with_batch_dim.length != t.dims.d.length + 1 then
      (Status.error "Rank of perm for transpose does not match with that of the input.", none, c)
    else if order_with_batch_dim.headD 0 != 0 then
      (Status.error "Transpose at batch dimension is not supported.", none, c)
    else
      let newDims : Dims :=
        { d := (order_with_batch_dim.drop 1).map (fun i => t.dims.d.getD (i - 1).toNat 0) }
      let (out, net) := c.trt_network_.addShuffleLayer newDims
      (Status.ok, some out, { c with trt_network_ := net })

/-- Modelled from the spec: the body of `Converter::PrepareTensorForShape`
lives in `convert_nodes.cc` (absent).  Per the header comment, it converts
the input into a tensor with the shape specified by `dims`: a reshape is
only legal when it preserves the element count; an input tensor already of
the requested shape is returned as is, otherwise a shuffle (reshape) layer
produces a tensor of shape `dims`. -/
def Converter.PrepareTensorForShape (c : Converter) (input : TRT_TensorOrWeights)
    (dims : Dims) : Status × ITensorPtr × Converter :=
  if TrtDimsNumElements input.shape != TrtDimsNumElements dims then
    (Status.error "Reshape shapes are not compatible.", none, c)
  else if input.is_tensor && input.shape == dims then
    (Status.ok, input.tensor_, c)
  else
    let (out, net) := c.trt_network_.addShuffleLayer dims
    (Status.ok, some out, { c with trt_network_ := net })

/-- `Converter::GetTempWeights`: allocates a weight block of the given type
and shape in the weight store and returns it. -/
def Converter.GetTempWeights (c : Converter) (type : DataType) (dims : Dims) :
    TRT_ShapedWeights × Converter :=
  let w : TRT_ShapedWeights := { shape_ := dims, type_ := type, values_ := some c.weight_store_.length }
  (w, { c with weight_store_ := c.weight_store_ ++ [w] })

/-- `Converter::GetTempWeightsLike`: a temporary weight block with the type
and shape of the given one. -/
def Converter.GetTempWeightsLike (c : Converter) (weights : TRT_ShapedWeights) :
    TRT_ShapedWeights × Converter :=
  c.GetTempWeights weights.type_ weights.shape_

/-- A generic op converter used to populate the dispatch table: runs the op
as one network layer producing one output tensor. -/
def genericOpConverter : OpConverter :=
  fun _ m _ _ =>
    let (t, net) := m.trt_network_.addShuffleLayer { d := [] }
    (Status.ok, [TRT_TensorOrWeights.mkTensor (some t)],
      { m with trt_network_ := net })

/-- Modelled from the spec: `Converter::RegisterOpConverters` (body in
`convert_nodes.cc`, absent) populates the per-op-type dispatch table; a
representative set of supported op types, each mapped to a converter. -/
def RegisterOpConverters : List (String × OpConverter) :=
  [("Conv2D", genericOpConverter),
   ("Relu", genericOpConverter),
   ("Const", genericOpConverter),
   ("MaxPool", genericOpConverter),
   ("BiasAdd", genericOpConverter),
   ("MatMul", genericOpConverter),
   ("Add", genericOpConverter),
   ("Mul", genericOpConverter),
   ("Reshape", genericOpConverter),
   ("Identity", genericOpConverter)]

/-- The `Converter(nvinfer1::INetworkDefinition*, bool, int)` constructor:
records the network, precision flag and batch limit, and registers the op
converters. -/
def Converter.construct (trt_network : INetworkDefinition) (fp16 : Bool)
    (max_batch_size : Int) : Converter :=
  { op_registry_ := RegisterOpConverters
    plugin_converter_ := genericOpConverter
    trt_tensors_ := []
    trt_network_ := trt_network
    weight_store_ := []
    fp16_ := fp16
    max_batch_size_ := max_batch_size }

/-- An `nvinfer1::ICudaEngine`: the opaque built engine. -/
structure ICudaEngine where
  id : Nat
deriving Repr, DecidableEq

/-- Modelled from the spec: the body of `ConvertGraphDefToEngine` lives in
`convert_nodes.cc` (absent).  Per the header comment: it converts the given
graph to a TRT network and then builds the engine; the returned status is ok
iff the builder successfully builds the engine, a non-ok result leaves the
engine null, and `convert_successfully` (the `Bool` component) reports
whether the conversion to a TensorRT network succeeded, which is different
from successfully building the engine.  The conversion stage and the
TensorRT builder are external and abstracted as `convertGraph` and
`buildCudaEngine`. -/
def ConvertGraphDefToEngine (gdef : GraphDef) (precision_mode : Int)
    (max_batch_size : Int) (max_workspace_size_bytes : Nat)
    (input_shapes : List Dims)
    (convertGraph : GraphDef → List Dims → Status)
    (buildCudaEngine : GraphDef → Option ICudaEngine) :
    Status × Option ICudaEngine × Bool :=
  match convertGraph gdef input_shapes with
  | Status.error m => (Status.error m, none, false)
  | Status.ok =>
    match buildCudaEngine gdef with
    | none => (Status.error "Failed to build TensorRT engine", none, true)
    | some e => (Status.ok, some e, true)

/-- A small concrete graph: a four-node chain `A -> B -> C -> D`, with the
middle nodes (ids 1 and 2) forming a segment. -/
def exampleGraph : Graph :=
  { nodes := [{ id := 0, def_ := { name := "A", op := "Const", input := [] } },
              { id := 1, def_ := { name := "B", op := "Relu", input := [{ node := "A", port := 0 }] } },
              { id := 2, def_ := { name := "C", op := "Relu", input := [{ node := "B", port := 0 }] } },
              { id := 3, def_ := { name := "D", op := "Identity", input := [{ node := "C", port := 0 }] } }],
    edges := [{ src := 0, src_output := 0, dst := 1, dst_input := 0 },
              { src := 1, src_output := 0, dst := 2, dst_input := 0 },
              { src := 2, src_output := 0, dst := 3, dst_input := 0 }] }

/-! ## Theorems -/

/-- Claim C9: an `EngineConnection` built with the control-edge constructor
has `outside_port`, `inside_port` and `port_number` all equal to
`Graph::kControlSlot` and `is_control_edge()` true; one built with the
non-control-edge constructor with port argument `port` has `port_number`
equal to `port` and is a control edge exactly when `port` equals
`Graph::kControlSlot`. -/
theorem engineConnection_constructors_c9
    (outside : String) (out_id out_port : Int) (inside : String)
    (in_id in_port : Int) (input_edge : Bool) (port : Int) :
    ((EngineConnection.mkControl outside out_id inside in_id input_edge).outside_port = kControlSlot
      ∧ (EngineConnection.mkControl outside out_id inside in_id input_edge).inside_port = kControlSlot
      ∧ (EngineConnection.mkControl outside out_id inside in_id input_edge).port_number = kControlSlot
      ∧ (EngineConnection.mkControl outside out_id inside in_id input_edge).is_control_edge = true)
    ∧ ((EngineConnection.mkNonControl outside out_id out_port inside in_id in_port input_edge port).port_number = port
      ∧ ((EngineConnection.mkNonControl outside out_id out_port inside in_id in_port input_edge port).is_control_edge = true
          ↔ port = kControlSlot)) := by
  refine ⟨⟨rfl, rfl, rfl, ?_⟩, rfl, ?_⟩
  · simp [EngineConnection.is_control_edge, EngineConnection.mkControl]
  · simp [EngineConnection.is_control_edge, EngineConnection.mkNonControl]

/-- Claim C10: a default-constructed `EngineInfo` has `engine_type` equal
to `EngineType::TRTStatic`, `max_workspace_size_bytes` equal to `0` and
`precision_mode` equal to `FP32MODE`. -/
theorem engineInfo_default_c10 (maximum_cached_engines : Int) :
    (EngineInfo.default maximum_cached_engines).engine_type = EngineType.TRTStatic
    ∧ (EngineInfo.default maximum_cached_engines).max_workspace_size_bytes = 0
    ∧ (EngineInfo.default maximum_cached_engines).precision_mode = FP32MODE :=
  ⟨rfl, rfl, rfl⟩

/-- Claim C4: the tensor/weight abstraction is an exclusive union:
`is_weights()` is the negation of `is_tensor()`, and under the respective
precondition each accessor takes its returning branch (the aborting `CHECK`
branch, modelled by `none`, is unreachable). -/
theorem tensorOrWeights_exclusive_c4 (x : TRT_TensorOrWeights) :
    x.is_weights = !x.is_tensor
    ∧ (x.is_tensor = true → x.tensor = some x.tensor_)
    ∧ (x.is_weights = true → x.weights = some x.weights_) := by
  refine ⟨rfl, fun h => ?_, fun h => ?_⟩
  · simp [TRT_TensorOrWeights.tensor, h]
  · simp [TRT_TensorOrWeights.weights, h]

/-- Witness for C4 at a concrete tensor value and a concrete weights
value. -/
theorem tensorOrWeights_exclusive_c4_witness :
    (TRT_TensorOrWeights.mkTensor (some { id := 0, dims := { d := [] } })).tensor
        = some (some { id := 0, dims := { d := [] } })
    ∧ (TRT_TensorOrWeights.mkWeights
        { shape_ := { d := [2] }, type_ := DataType.DT_FLOAT, values_ := none }).weights
        = some { shape_ := { d := [2] }, type_ := DataType.DT_FLOAT, values_ := none } :=
  ⟨(tensorOrWeights_exclusive_c4 _).2.1 rfl, (tensorOrWeights_exclusive_c4 _).2.2 rfl⟩

/-- Claim C6: when `Converter::PrepareTensorForShape` returns an ok status,
any tensor it produces has exactly the shape `dims`, and the reconciliation
preserves the input's element count. -/
theorem prepareTensorForShape_c6 (c : Converter) (input : TRT_TensorOrWeights)
    (dims : Dims) (hok : (c.PrepareTensorForShape input dims).1 = Status.ok) :
    (∀ t : ITensor, (c.PrepareTensorForShape input dims).2.1 = some t → t.dims = dims)
    ∧ TrtDimsNumElements input.shape = TrtDimsNumElements dims := by
  by_cases h1 : (TrtDimsNumElements input.shape != TrtDimsNumElements dims) = true
  · simp [Converter.PrepareTensorForShape, h1] at hok
  · have hcnt : TrtDimsNumElements input.shape = TrtDimsNumElements dims := by
      simpa using h1
    refine ⟨fun t ht => ?_, hcnt⟩
    by_cases h2 : (input.is_tensor && input.shape == dims) = true
    · have h2' := h2
      rw [Bool.and_eq_true] at h2'
      have hit : input.is_tensor_ = true := h2'.1
      have hsh : input.shape = dims := eq_of_beq h2'.2
      simp [Converter.PrepareTensorForShape, h1, h2] at ht
      rw [← hsh]
      simp [TRT_TensorOrWeights.shape, hit, ht]
    · simp [Converter.PrepareTensorForShape, h1, h2,
        INetworkDefinition.addShuffleLayer] at ht
      rw [← ht]

/-- Witness for C6: a 2x3 input tensor reshaped to 3x2. -/
theorem prepareTensorForShape_c6_witness :
    TrtDimsNumElements (TRT_TensorOrWeights.mkTensor
        (some { id := 5, dims := { d := [2, 3] } })).shape
      = TrtDimsNumElements { d := [3, 2] }
    ∧ ({ id := 0, dims := { d := [3, 2] } } : ITensor).dims = { d := [3, 2] } :=
  ⟨(prepareTensorForShape_c6 (Converter.construct { inputs := [], num_layers := 0 } false 1)
      (TRT_TensorOrWeights.mkTensor (some { id := 5, dims := { d := [2, 3] } }))
      { d := [3, 2] } rfl).2,
   (prepareTensorForShape_c6 (Converter.construct { inputs := [], num_layers := 0 } false 1)
      (TRT_TensorOrWeights.mkTensor (some { id := 5, dims := { d := [2, 3] } }))
      { d := [3, 2] } rfl).1 _ rfl⟩

/-- Claim C8: `ConvertGraphDefToEngine` returns ok exactly when the
conversion succeeds and the builder builds the engine; a non-ok status
leaves the engine null; and the `convert_successfully` component equals the
success of the conversion stage alone, independently of the build. -/
theorem convertGraphDefToEngine_c8 (gdef : GraphDef)
    (precision_mode max_batch_size : Int) (max_workspace_size_bytes : Nat)
    (input_shapes : List Dims) (convertGraph : GraphDef → List Dims → Status)
    (buildCudaEngine : GraphDef → Option ICudaEngine) :
    ((ConvertGraphDefToEngine gdef precision_mode max_batch_size
        max_workspace_size_bytes input_shapes convertGraph buildCudaEngine).1.isOk = true
      ↔ ((convertGraph gdef input_shapes).isOk = true
          ∧ (buildCudaEngine gdef).isSome = true))
    ∧ ((ConvertGraphDefToEngine gdef precision_mode max_batch_size
        max_workspace_size_bytes input_shapes convertGraph buildCudaEngine).1.isOk = false →
       (ConvertGraphDefToEngine gdef precision_mode max_batch_size
        max_workspace_size_bytes input_shapes convertGraph buildCudaEngine).2.1 = none)
    ∧ (ConvertGraphDefToEngine gdef precision_mode max_batch_size
        max_workspace_size_bytes input_shapes convertGraph buildCudaEngine).2.2
      = (convertGraph gdef input_shapes).isOk := by
  cases hc : convertGraph gdef input_shapes <;>
    cases hb : buildCudaEngine gdef <;>
      simp [ConvertGraphDefToEngine, hc, hb, Status.isOk]

/-- Witness for C8: a failing conversion leaves the engine null. -/
theorem convertGraphDefToEngine_c8_witness :
    (ConvertGraphDefToEngine { node := [] } 0 1 0 []
      (fun _ _ => Status.error "conversion failed") (fun _ => none)).2.1 = none :=
  (convertGraphDefToEngine_c8 { node := [] } 0 1 0 []
    (fun _ _ => Status.error "conversion failed") (fun _ => none)).2.1 rfl

/-- Recording op outputs in the symbol table touches neither the precision
flag nor the batch limit. -/
theorem insertOutputs_preserves_config (l : List TRT_TensorOrWeights) :
    ∀ (c : Converter) (nm : String) (i : Nat),
      (Converter.insertOutputs c nm i l).2.fp16_ = c.fp16_
      ∧ (Converter.insertOutputs c nm i l).2.max_batch_size_ = c.max_batch_size_ := by
  induction l with
  | nil => intro c nm i; exact ⟨rfl, rfl⟩
  | cons x rest ih =>
    intro c nm i
    unfold Converter.insertOutputs
    dsimp only
    split
    · split
      · exact ⟨rfl, rfl⟩
      · exact ih _ nm (i + 1)
    · split
      · exact ⟨rfl, rfl⟩
      · exact ih _ nm (i + 1)

/-- Claim C7: the precision mode and batch limit are fixed at construction:
`IsFP16()` and `GetMaxBatchSize()` return the constructor arguments, and no
converter operation (`ConvertNode`, `AddInputTensor`, `TransposeTensor`,
`PrepareTensorForShape`, `GetTempWeights`) changes either value. -/
theorem converter_config_frame_c7 (trt_network : INetworkDefinition)
    (fp16 : Bool) (max_batch_size : Int) (c : Converter)
    (isPlugin : String → Bool) (node_def : NodeDef) (name : String)
    (tensor input_tensor : ITensorPtr) (order_with_batch_dim : List Int)
    (input : TRT_TensorOrWeights) (dims : Dims) (type : DataType) :
    ((Converter.construct trt_network fp16 max_batch_size).IsFP16 = fp16
      ∧ (Converter.construct trt_network fp16 max_batch_size).GetMaxBatchSize = max_batch_size)
    ∧ ((c.ConvertNode isPlugin node_def).2.IsFP16 = c.IsFP16
      ∧ (c.ConvertNode isPlugin node_def).2.GetMaxBatchSize = c.GetMaxBatchSize)
    ∧ ((c.AddInputTensor name tensor).2.IsFP16 = c.IsFP16
      ∧ (c.AddInputTensor name tensor).2.GetMaxBatchSize = c.GetMaxBatchSize)
    ∧ ((c.TransposeTensor input_tensor order_with_batch_dim).2.2.IsFP16 = c.IsFP16
      ∧ (c.TransposeTensor input_tensor order_with_batch_dim).2.2.GetMaxBatchSize = c.GetMaxBatchSize)
    ∧ ((c.PrepareTensorForShape input dims).2.2.IsFP16 = c.IsFP16
      ∧ (c.PrepareTensorForShape input dims).2.2.GetMaxBatchSize = c.GetMaxBatchSize)
    ∧ ((c.GetTempWeights type dims).2.IsFP16 = c.IsFP16
      ∧ (c.GetTempWeights type dims).2.GetMaxBatchSize = c.GetMaxBatchSize) := by
  refine ⟨⟨rfl, rfl⟩, ?_, ?_, ?_, ?_, ⟨rfl, rfl⟩⟩
  · unfold Converter.ConvertNode
    cases h : c.getInputsList node_def.input with
    | error m => exact ⟨rfl, rfl⟩
    | ok inputs =>
      dsimp only
      cases h2 : (if isPlugin node_def.op then some c.plugin_converter_
          else (c.op_registry_.find? (fun p => p.1 == node_def.op)).map Prod.snd) with
      | none => exact ⟨rfl, rfl⟩
      | some oc =>
        dsimp only
        unfold Converter.applyOpConverter
        cases h3 : oc c.env c.mutOf node_def inputs with
        | mk s rest =>
          cases rest with
          | mk outputs m =>
            cases s with
            | error msg => exact ⟨rfl, rfl⟩
            | ok => exact insertOutputs_preserves_config outputs _ node_def.name 0
  · unfold Converter.AddInputTensor
    split
    · exact ⟨rfl, rfl⟩
    · exact ⟨rfl, rfl⟩
  · unfold Converter.TransposeTensor
    cases input_tensor with
    | none => exact ⟨rfl, rfl⟩
    | some t =>
      dsimp only
      split
      · exact ⟨rfl, rfl⟩
      · split
        · exact ⟨rfl, rfl⟩
        · exact ⟨rfl, rfl⟩
  · unfold Converter.PrepareTensorForShape
    split
    · exact ⟨rfl, rfl⟩
    · split
      · exact ⟨rfl, rfl⟩
      · exact ⟨rfl, rfl⟩

/-- Claim C3: `Converter::ConvertNode` dispatches through the per-op-type
registry: a node whose op type is neither in `op_registry_` nor known to the
plugin factory yields a non-ok status, and a registered op's converter is
applied to the node's resolved inputs. -/
theorem convertNode_dispatch_c3 (isPlugin : String → Bool) (c : Converter)
    (node_def : NodeDef) :
    (isPlugin node_def.op = false →
      c.op_registry_.find? (fun p => p.1 == node_def.op) = none →
      (c.ConvertNode isPlugin node_def).1.isOk = false)
    ∧ (∀ (oc : OpConverter) (inputs : List TRT_TensorOrWeights),
        isPlugin node_def.op = false →
        (c.op_registry_.find? (fun p => p.1 == node_def.op)).map Prod.snd = some oc →
        c.getInputsList node_def.input = Except.ok inputs →
        c.ConvertNode isPlugin node_def = c.applyOpConverter node_def oc inputs) := by
  constructor
  · intro hp hr
    unfold Converter.ConvertNode
    cases h : c.getInputsList node_def.input with
    | error m => rfl
    | ok inputs => simp [hp, hr, Status.isOk]
  · intro oc inputs hp hr hi
    unfold Converter.ConvertNode
    rw [hi]
    simp [hp, hr]

/-- Witness for C3: on a freshly constructed converter, the unsupported op
type "NotAnOp" is rejected, while "Conv2D" is dispatched to its registered
converter. -/
theorem convertNode_dispatch_c3_witness :
    ((Converter.construct { inputs := [], num_layers := 0 } false 1).ConvertNode
        (fun _ => false) { name := "n0", op := "NotAnOp", input := [] }).1.isOk = false
    ∧ (Converter.construct { inputs := [], num_layers := 0 } false 1).ConvertNode
        (fun _ => false) { name := "n1", op := "Conv2D", input := [] }
      = (Converter.construct { inputs := [], num_layers := 0 } false 1).applyOpConverter
          { name := "n1", op := "Conv2D", input := [] } genericOpConverter [] :=
  ⟨(convertNode_dispatch_c3 _ _ _).1 rfl rfl,
   (convertNode_dispatch_c3 _ _ _).2 genericOpConverter [] rfl rfl rfl⟩

/-- In a duplicate-free list, earlier elements have smaller indices. -/
theorem nodup_pairwise_indexOf_lt {α : Type} [DecidableEq α] {l : List α}
    (h : l.Nodup) : l.Pairwise (fun a b => l.indexOf a < l.indexOf b) := by
  rw [List.pairwise_iff_get]
  intro i j hij
  rw [List.get_indexOf h, List.get_indexOf h]
  exact hij

/-- A pairwise relation holds between any two members in index order. -/
theorem pairwise_rel_of_indexOf_lt {α : Type} [DecidableEq α]
    {R : α → α → Prop} {l : List α} (hp : l.Pairwise R) {a b : α}
    (ha : a ∈ l) (hb : b ∈ l) (hlt : l.indexOf a < l.indexOf b) : R a b := by
  rw [List.pairwise_iff_get] at hp
  have h1 : l.indexOf a < l.length := List.indexOf_lt_length.2 ha
  have h2 : l.indexOf b < l.length := List.indexOf_lt_length.2 hb
  have := hp ⟨l.indexOf a, h1⟩ ⟨l.indexOf b, h2⟩ hlt
  rwa [List.indexOf_get, List.indexOf_get] at this

/-- Membership in the segment's input-edge list. -/
theorem mem_segmentInputEdges {g : Graph} {ids : List Int} {e : Edge} :
    e ∈ segmentInputEdges g ids ↔
      e ∈ g.edges ∧ e.dst ∈ ids ∧ e.src ∉ ids ∧ e.IsControlEdge = false := by
  unfold segmentInputEdges
  rw [List.mem_flatten]
  constructor
  · rintro ⟨l, hl, hel⟩
    rw [List.mem_map] at hl
    obtain ⟨id, hid, rfl⟩ := hl
    rw [List.mem_filter] at hel
    obtain ⟨he, hcond⟩ := hel
    simp only [Bool.and_eq_true, beq_iff_eq, Bool.not_eq_true',
      decide_eq_true_eq] at hcond
    obtain ⟨⟨hdst, hsrc⟩, hctl⟩ := hcond
    exact ⟨he, hdst ▸ hid, hsrc, hctl⟩
  · rintro ⟨he, hdst, hsrc, hctl⟩
    refine ⟨_, List.mem_map_of_mem _ hdst, ?_⟩
    rw [List.mem_filter]
    refine ⟨he, ?_⟩
    simp [hsrc, hctl]

/-- Membership in the segment's output-edge list. -/
theorem mem_segmentOutputEdges {g : Graph} {ids : List Int} {e : Edge} :
    e ∈ segmentOutputEdges g ids ↔
      e ∈ g.edges ∧ e.src ∈ ids ∧ e.dst ∉ ids ∧ e.IsControlEdge = false := by
  unfold segmentOutputEdges
  rw [List.mem_flatten]
  constructor
  · rintro ⟨l, hl, hel⟩
    rw [List.mem_map] at hl
    obtain ⟨id, hid, rfl⟩ := hl
    rw [List.mem_filter] at hel
    obtain ⟨he, hcond⟩ := hel
    simp only [Bool.and_eq_true, beq_iff_eq, Bool.not_eq_true',
      decide_eq_true_eq] at hcond
    obtain ⟨⟨hsrc, hdst⟩, hctl⟩ := hcond
    exact ⟨he, hsrc ▸ hid, hdst, hctl⟩
  · rintro ⟨he, hsrc, hdst, hctl⟩
    refine ⟨_, List.mem_map_of_mem _ hsrc, ?_⟩
    rw [List.mem_filter]
    refine ⟨he, ?_⟩
    simp [hdst, hctl]

/-- The segment's input edges are listed with their inside nodes following
the order of `ids`. -/
theorem segmentInputEdges_pairwise_dst {g : Graph} {ids : List Int}
    (h : ids.Nodup) :
    (segmentInputEdges g ids).Pairwise
      (fun e1 e2 => ids.indexOf e1.dst ≤ ids.indexOf e2.dst) := by
  unfold segmentInputEdges
  rw [List.pairwise_flatten]
  constructor
  · intro l hl
    rw [List.mem_map] at hl
    obtain ⟨id, _, rfl⟩ := hl
    apply List.pairwise_of_forall_mem_list
    intro a ha b hb
    rw [List.mem_filter] at ha hb
    have hda : a.dst = id := by
      have := ha.2
      simp only [Bool.and_eq_true, beq_iff_eq] at this
      exact this.1.1
    have hdb : b.dst = id := by
      have := hb.2
      simp only [Bool.and_eq_true, beq_iff_eq] at this
      exact this.1.1
    rw [hda, hdb]
  · rw [List.pairwise_map]
    apply List.Pairwise.imp ?_ (nodup_pairwise_indexOf_lt h)
    intro a b hab x hx y hy
    rw [List.mem_filter] at hx hy
    have hxa : x.dst = a := by
      have := hx.2
      simp only [Bool.and_eq_true, beq_iff_eq] at this
      exact this.1.1
    have hyb : y.dst = b := by
      have := hy.2
      simp only [Bool.and_eq_true, beq_iff_eq] at this
      exact this.1.1
    rw [hxa, hyb]
    exact le_of_lt hab

/-- A string extended on the right keeps its prefix. -/
theorem strBegins_append_self (p s : String) : strBegins p (p ++ s) = true := by
  unfold strBegins
  rw [String.data_append, List.take_left]
  exact beq_self_eq_true _

/-- Connections built for input edges are non-control input connections. -/
theorem toInputConn_not_control (g : Graph) (ie : List Edge) (e : Edge) :
    (toInputConn g ie e).is_control_edge = false := by
  unfold toInputConn EngineConnection.mkNonControl EngineConnection.is_control_edge
    inputPortOf kControlSlot
  dsimp only
  rw [beq_eq_false_iff_ne]
  omega

/-- Connections built for output edges are non-control output connections. -/
theorem toOutputConn_not_control (g : Graph) (oe : List Edge) (e : Edge) :
    (toOutputConn g oe e).is_control_edge = false := by
  unfold toOutputConn EngineConnection.mkNonControl EngineConnection.is_control_edge
    outputPortOf kControlSlot
  dsimp only
  rw [beq_eq_false_iff_ne]
  omega

/-- Connections built for boundary control edges are control connections. -/
theorem toControlConn_is_control (g : Graph) (ids : List Int) (e : Edge) :
    (toControlConn g ids e).is_control_edge = true := by
  unfold toControlConn
  split <;> rfl

/-- The non-control input connections of the built connection vector are
exactly the connections of the (deduplicated) segment input edges. -/
theorem inputConnsOf_GetEngineConnections (g : Graph) (ids : List Int) :
    inputConnsOf (GetEngineConnections g ids)
      = ((segmentInputEdges g ids).dedup).map
          (toInputConn g ((segmentInputEdges g ids).dedup)) := by
  unfold GetEngineConnections inputConnsOf
  dsimp only
  have hA : ∀ a ∈ ((segmentInputEdges g ids).dedup).map
      (toInputConn g ((segmentInputEdges g ids).dedup)),
      (a.is_input_edge && !a.is_control_edge) = true := by
    intro a ha
    rw [List.mem_map] at ha
    obtain ⟨e, -, rfl⟩ := ha
    simp [toInputConn_not_control]
    rfl
  have hB : ∀ a ∈ ((segmentOutputEdges g ids).dedup).map
      (toOutputConn g ((segmentOutputEdges g ids).dedup)),
      ¬(a.is_input_edge && !a.is_control_edge) = true := by
    intro a ha
    rw [List.mem_map] at ha
    obtain ⟨e, -, rfl⟩ := ha
    have : (toOutputConn g ((segmentOutputEdges g ids).dedup) e).is_input_edge = false := rfl
    simp [this]
  have hC : ∀ a ∈ (segmentControlEdges g ids).map (toControlConn g ids),
      ¬(a.is_input_edge && !a.is_control_edge) = true := by
    intro a ha
    rw [List.mem_map] at ha
    obtain ⟨e, -, rfl⟩ := ha
    simp [toControlConn_is_control]
  rw [List.filter_append, List.filter_append]
  rw [List.filter_eq_self.mpr hA, List.filter_eq_nil_iff.mpr hB,
    List.filter_eq_nil_iff.mpr hC]
  simp

/-- The non-control connections of the built connection vector are the input
connections followed by the output connections. -/
theorem nonControlConns_GetEngineConnections (g : Graph) (ids : List Int) :
    nonControlConns (GetEngineConnections g ids)
      = ((segmentInputEdges g ids).dedup).map
          (toInputConn g ((segmentInputEdges g ids).dedup))
        ++ ((segmentOutputEdges g ids).dedup).map
          (toOutputConn g ((segmentOutputEdges g ids).dedup)) := by
  unfold GetEngineConnections nonControlConns
  dsimp only
  have hA : ∀ a ∈ ((segmentInputEdges g ids).dedup).map
      (toInputConn g ((segmentInputEdges g ids).dedup)), (!a.is_control_edge) = true := by
    intro a ha
    rw [List.mem_map] at ha
    obtain ⟨e, -, rfl⟩ := ha
    simp [toInputConn_not_control]
  have hB : ∀ a ∈ ((segmentOutputEdges g ids).dedup).map
      (toOutputConn g ((segmentOutputEdges g ids).dedup)), (!a.is_control_edge) = true := by
    intro a ha
    rw [List.mem_map] at ha
    obtain ⟨e, -, rfl⟩ := ha
    simp [toOutputConn_not_control]
  have hC : ∀ a ∈ (segmentControlEdges g ids).map (toControlConn g ids),
      ¬(!a.is_control_edge) = true := by
    intro a ha
    rw [List.mem_map] at ha
    obtain ⟨e, -, rfl⟩ := ha
    simp [toControlConn_is_control]
  rw [List.filter_append, List.filter_append]
  rw [List.filter_eq_self.mpr hA, List.filter_eq_self.mpr hB,
    List.filter_eq_nil_iff.mpr hC]
  simp

/-- Two distinct input edges yield distinct connections. -/
theorem toInputConn_injective (g : Graph) (ie : List Edge) {x y : Edge}
    (h : toInputConn g ie x = toInputConn g ie y) : x = y := by
  cases x; cases y
  simp only [toInputConn, EngineConnection.mkNonControl,
    EngineConnection.mk.injEq] at h
  obtain ⟨-, h1, h2, -, h3, h4, -, -⟩ := h
  simp_all

/-- Two distinct output edges yield distinct connections. -/
theorem toOutputConn_injective (g : Graph) (oe : List Edge) {x y : Edge}
    (h : toOutputConn g oe x = toOutputConn g oe y) : x = y := by
  cases x; cases y
  simp only [toOutputConn, EngineConnection.mkNonControl,
    EngineConnection.mk.injEq] at h
  obtain ⟨-, h1, h2, -, h3, h4, -, -⟩ := h
  simp_all

/-- Claim C5: in the built connection vector, the non-control input
connections are ordered so that the segment nodes they connect to follow
the topologically sorted order of `ids` (positions are nondecreasing, and
distinct inside nodes have no backward data edge), and the non-control
connections contain no duplicates. -/
theorem engineInfo_connections_c5 (g : Graph) (ids : List Int)
    (htopo : TopoSortedIds g ids) (hnodup : ids.Nodup) :
    (inputConnsOf (GetEngineConnections g ids)).Pairwise
        (fun c1 c2 => posInSegment ids c1 ≤ posInSegment ids c2)
    ∧ (inputConnsOf (GetEngineConnections g ids)).Pairwise
        (fun c1 c2 => c1.inside_id = c2.inside_id
          ∨ hasDataEdge g c2.inside_id c1.inside_id = false)
    ∧ (nonControlConns (GetEngineConnections g ids)).Nodup := by
  have hped : ((segmentInputEdges g ids).dedup).Pairwise
      (fun e1 e2 => ids.indexOf e1.dst ≤ ids.indexOf e2.dst) :=
    List.Pairwise.sublist (List.dedup_sublist _) (segmentInputEdges_pairwise_dst hnodup)
  refine ⟨?_, ?_, ?_⟩
  · rw [inputConnsOf_GetEngineConnections, List.pairwise_map]
    exact hped.imp (fun hab => hab)
  · rw [inputConnsOf_GetEngineConnections, List.pairwise_map]
    apply List.Pairwise.imp_of_mem ?_ hped
    intro a b ha hb hle
    have hamem : a.dst ∈ ids := (mem_segmentInputEdges.mp (List.mem_dedup.mp ha)).2.1
    have hbmem : b.dst ∈ ids := (mem_segmentInputEdges.mp (List.mem_dedup.mp hb)).2.1
    by_cases heq : a.dst = b.dst
    · exact Or.inl heq
    · refine Or.inr ?_
      have hne : ids.indexOf a.dst ≠ ids.indexOf b.dst := fun hc =>
        heq ((List.indexOf_inj hamem hbmem).mp hc)
      exact pairwise_rel_of_indexOf_lt htopo hamem hbmem (lt_of_le_of_ne hle hne)
  · rw [nonControlConns_GetEngineConnections, List.nodup_append]
    refine ⟨?_, ?_, ?_⟩
    · exact List.Nodup.map_on (fun x _ y _ h => toInputConn_injective g _ h)
        (List.nodup_dedup _)
    · exact List.Nodup.map_on (fun x _ y _ h => toOutputConn_injective g _ h)
        (List.nodup_dedup _)
    · intro a haA haB
      rw [List.mem_map] at haA haB
      obtain ⟨e1, -, rfl⟩ := haA
      obtain ⟨e2, -, h2⟩ := haB
      have hcon : (toInputConn g ((segmentInputEdges g ids).dedup) e1).is_input_edge
          = (toOutputConn g ((segmentOutputEdges g ids).dedup) e2).is_input_edge := by
        rw [h2]
      simp only [toInputConn, toOutputConn, EngineConnection.mkNonControl] at hcon
      exact absurd hcon (by simp)

/-- Witness for C5: the two-node segment of the example chain graph. -/
theorem engineInfo_connections_c5_witness :
    TopoSortedIds exampleGraph [1, 2]
    ∧ (nonControlConns (GetEngineConnections exampleGraph [1, 2])).Nodup :=
  ⟨by decide,
   (engineInfo_connections_c5 exampleGraph [1, 2] (by decide) (by decide)).2.2⟩

/-- The non-control output connections of the built connection vector are
exactly the connections of the (deduplicated) segment output edges. -/
theorem outputConnsOf_GetEngineConnections (g : Graph) (ids : List Int) :
    outputConnsOf (GetEngineConnections g ids)
      = ((segmentOutputEdges g ids).dedup).map
          (toOutputConn g ((segmentOutputEdges g ids).dedup)) := by
  unfold GetEngineConnections outputConnsOf
  dsimp only
  have hA : ∀ a ∈ ((segmentInputEdges g ids).dedup).map
      (toInputConn g ((segmentInputEdges g ids).dedup)),
      ¬(!a.is_input_edge && !a.is_control_edge) = true := by
    intro a ha
    rw [List.mem_map] at ha
    obtain ⟨e, -, rfl⟩ := ha
    have : (toInputConn g ((segmentInputEdges g ids).dedup) e).is_input_edge = true := rfl
    simp [this]
  have hB : ∀ a ∈ ((segmentOutputEdges g ids).dedup).map
      (toOutputConn g ((segmentOutputEdges g ids).dedup)),
      (!a.is_input_edge && !a.is_control_edge) = true := by
    intro a ha
    rw [List.mem_map] at ha
    obtain ⟨e, -, rfl⟩ := ha
    have h1 : (toOutputConn g ((segmentOutputEdges g ids).dedup) e).is_input_edge = false := rfl
    simp [h1, toOutputConn_not_control]
  have hC : ∀ a ∈ (segmentControlEdges g ids).map (toControlConn g ids),
      ¬(!a.is_input_edge && !a.is_control_edge) = true := by
    intro a ha
    rw [List.mem_map] at ha
    obtain ⟨e, -, rfl⟩ := ha
    simp [toControlConn_is_control]
  rw [List.filter_append, List.filter_append]
  rw [List.filter_eq_nil_iff.mpr hA, List.filter_eq_self.mpr hB,
    List.filter_eq_nil_iff.mpr hC]
  simp

/-- The added placeholder nodes carry the reserved input-placeholder name
prefix. -/
theorem segmentPlaceholders_isPH (conns : List EngineConnection) :
    ∀ a ∈ segmentPlaceholders conns, a.isBoundaryPH = true := by
  intro a ha
  unfold segmentPlaceholders at ha
  rw [List.mem_map] at ha
  obtain ⟨p, -, rfl⟩ := ha
  simp [NodeDef.isBoundaryPH, strBegins_append_self]

/-- The added identity nodes carry the reserved output-placeholder name
prefix. -/
theorem segmentIdentities_isPH (conns : List EngineConnection) :
    ∀ a ∈ segmentIdentities conns, a.isBoundaryPH = true := by
  intro a ha
  unfold segmentIdentities at ha
  rw [List.mem_filterMap] at ha
  obtain ⟨p, -, hsome⟩ := ha
  rw [Option.map_eq_some'] at hsome
  obtain ⟨c, -, rfl⟩ := hsome
  simp [NodeDef.isBoundaryPH, strBegins_append_self]

/-- When no graph node uses the reserved prefixes, the segment's own
nodedefs are the non-placeholder ones. -/
theorem segmentBody_not_PH (g : Graph) (names_l : List String) (ids : List Int)
    (conns : List EngineConnection)
    (hph : ∀ n ∈ g.nodes, NodeDef.isBoundaryPH n.def_ = false) :
    ∀ a ∈ segmentBody g names_l ids conns, a.isBoundaryPH = false := by
  intro a ha
  unfold segmentBody at ha
  rw [List.mem_filterMap] at ha
  obtain ⟨id, -, hsome⟩ := ha
  rw [Option.map_eq_some'] at hsome
  obtain ⟨n, hn, rfl⟩ := hsome
  exact hph n (List.mem_of_find?_eq_some hn)

/-- Filtering the added boundary nodes out of the produced graphdef leaves
exactly the segment's own nodedefs. -/
theorem segment_body_filter (g : Graph) (props : GraphProperties)
    (names_l : List String) (ids : List Int) (conns : List EngineConnection)
    (hph : ∀ n ∈ g.nodes, NodeDef.isBoundaryPH n.def_ = false) :
    ((ConvertSegmentToGraphDef g props names_l ids conns).2.1).node.filter
        (fun nd => ! nd.isBoundaryPH)
      = segmentBody g names_l ids conns := by
  unfold ConvertSegmentToGraphDef
  dsimp only
  have h1 : ∀ a ∈ segmentPlaceholders conns, ¬(!a.isBoundaryPH) = true := by
    intro a ha
    simp [segmentPlaceholders_isPH conns a ha]
  have h2 : ∀ a ∈ segmentBody g names_l ids conns, (!a.isBoundaryPH) = true := by
    intro a ha
    simp [segmentBody_not_PH g names_l ids conns hph a ha]
  have h3 : ∀ a ∈ segmentIdentities conns, ¬(!a.isBoundaryPH) = true := by
    intro a ha
    simp [segmentIdentities_isPH conns a ha]
  rw [List.filter_append, List.filter_append]
  rw [List.filter_eq_nil_iff.mpr h1, List.filter_eq_self.mpr h2,
    List.filter_eq_nil_iff.mpr h3]
  simp

/-- The segment's own nodedefs inherit the topological order of the node-id
list. -/
theorem segmentBody_topoSorted (g : Graph) (names_l : List String)
    (ids : List Int) (conns : List EngineConnection)
    (htopo : TopoSortedIds g ids)
    (hnames : (g.nodes.map GNode.name).Nodup) :
    TopoSortedDefs g (segmentBody g names_l ids conns) := by
  unfold TopoSortedDefs segmentBody
  rw [List.pairwise_filterMap]
  apply List.Pairwise.imp ?_ htopo
  intro i j hij x hx y hy
  rw [Option.mem_def, Option.map_eq_some'] at hx hy
  obtain ⟨ni, hni, rfl⟩ := hx
  obtain ⟨nj, hnj, rfl⟩ := hy
  by_contra hcon
  rw [Bool.not_eq_false] at hcon
  unfold hasDataEdgeByName at hcon
  rw [List.any_eq_true] at hcon
  obtain ⟨e, he, hecond⟩ := hcon
  rw [Bool.and_eq_true, Bool.and_eq_true] at hecond
  obtain ⟨⟨hctl, hsrcn⟩, hdstn⟩ := hecond
  rw [beq_iff_eq] at hsrcn hdstn
  unfold nodeNameOf at hsrcn hdstn
  rw [Option.map_eq_some'] at hsrcn hdstn
  obtain ⟨m1, hm1, hm1n⟩ := hsrcn
  obtain ⟨m2, hm2, hm2n⟩ := hdstn
  unfold Graph.FindNodeId at hm1 hm2 hni hnj
  have hm1nj : m1 = nj :=
    List.inj_on_of_nodup_map hnames (List.mem_of_find?_eq_some hm1)
      (List.mem_of_find?_eq_some hnj) hm1n
  have hm2ni : m2 = ni :=
    List.inj_on_of_nodup_map hnames (List.mem_of_find?_eq_some hm2)
      (List.mem_of_find?_eq_some hni) hm2n
  have hsrc : e.src = j := by
    have h1 := List.find?_some hm1
    have h2 := List.find?_some hnj
    simp only [beq_iff_eq] at h1 h2
    rw [← h1, hm1nj, h2]
  have hdst : e.dst = i := by
    have h1 := List.find?_some hm2
    have h2 := List.find?_some hni
    simp only [beq_iff_eq] at h1 h2
    rw [← h1, hm2ni, h2]
  have hcontr : hasDataEdge g j i = true := by
    unfold hasDataEdge
    rw [List.any_eq_true]
    refine ⟨e, he, ?_⟩
    rw [Bool.and_eq_true, Bool.and_eq_true]
    exact ⟨⟨hctl, by rw [beq_iff_eq]; exact hsrc⟩, by rw [beq_iff_eq]; exact hdst⟩
  rw [hij] at hcontr
  exact absurd hcontr (by simp)

/-- Claim C2: with `subgraph_node_ids` topologically sorted, the graphdef
built by `ConvertSegmentToGraphDef` represents each non-control input edge
of the segment by an added placeholder node (`InputPH_*`) for its
connection's port, each non-control output edge by an added identity node
(`OutputPH_*`), and its remaining (non-placeholder) nodedefs are sorted in
topological order. -/
theorem convertSegmentToGraphDef_c2 (g : Graph) (props : GraphProperties)
    (names_l : List String) (ids : List Int)
    (htopo : TopoSortedIds g ids)
    (hnames : (g.nodes.map GNode.name).Nodup)
    (hph : ∀ n ∈ g.nodes, NodeDef.isBoundaryPH n.def_ = false) :
    (∀ e ∈ g.edges, e.dst ∈ ids → e.src ∉ ids → e.IsControlEdge = false →
      ∃ c ∈ GetEngineConnections g ids,
        c.is_input_edge = true ∧ c.is_control_edge = false
        ∧ c.outside_id = e.src ∧ c.inside_id = e.dst
        ∧ ∃ nd ∈ ((ConvertSegmentToGraphDef g props names_l ids
              (GetEngineConnections g ids)).2.1).node,
            nd.name = kInputPHName ++ toString c.port_number ∧ nd.op = "Placeholder")
    ∧ (∀ e ∈ g.edges, e.src ∈ ids → e.dst ∉ ids → e.IsControlEdge = false →
      ∃ c ∈ GetEngineConnections g ids,
        c.is_input_edge = false ∧ c.is_control_edge = false
        ∧ c.inside_id = e.src ∧ c.outside_id = e.dst
        ∧ ∃ nd ∈ ((ConvertSegmentToGraphDef g props names_l ids
              (GetEngineConnections g ids)).2.1).node,
            nd.name = kOutputPHName ++ toString c.port_number ∧ nd.op = "Identity")
    ∧ TopoSortedDefs g
        (((ConvertSegmentToGraphDef g props names_l ids
            (GetEngineConnections g ids)).2.1).node.filter
          (fun nd => ! nd.isBoundaryPH)) := by
  refine ⟨?_, ?_, ?_⟩
  · intro e he hdst hsrc hctl
    have hmem : e ∈ segmentInputEdges g ids :=
      mem_segmentInputEdges.mpr ⟨he, hdst, hsrc, hctl⟩
    have hmemd : e ∈ (segmentInputEdges g ids).dedup := List.mem_dedup.mpr hmem
    refine ⟨toInputConn g ((segmentInputEdges g ids).dedup) e, ?_, rfl,
      toInputConn_not_control g _ e, rfl, rfl, ?_⟩
    · unfold GetEngineConnections
      exact List.mem_append_left _
        (List.mem_append_left _ (List.mem_map_of_mem _ hmemd))
    · refine ⟨{ name := (kInputPHName ++
                  toString ((toInputConn g ((segmentInputEdges g ids).dedup) e).port_number)),
                op := "Placeholder", input := [] }, ?_, rfl, rfl⟩
      unfold ConvertSegmentToGraphDef
      dsimp only
      refine List.mem_append_left _ (List.mem_append_left _ ?_)
      unfold segmentPlaceholders
      refine List.mem_map_of_mem _ ?_
      unfold segmentInputPorts
      rw [List.mem_dedup]
      refine List.mem_map_of_mem _ ?_
      rw [inputConnsOf_GetEngineConnections]
      exact List.mem_map_of_mem _ hmemd
  · intro e he hsrc hdst hctl
    have hmem : e ∈ segmentOutputEdges g ids :=
      mem_segmentOutputEdges.mpr ⟨he, hsrc, hdst, hctl⟩
    have hmemd : e ∈ (segmentOutputEdges g ids).dedup := List.mem_dedup.mpr hmem
    have hcmem : toOutputConn g ((segmentOutputEdges g ids).dedup) e
        ∈ outputConnsOf (GetEngineConnections g ids) := by
      rw [outputConnsOf_GetEngineConnections]
      exact List.mem_map_of_mem _ hmemd
    refine ⟨toOutputConn g ((segmentOutputEdges g ids).dedup) e, ?_, rfl,
      toOutputConn_not_control g _ e, rfl, rfl, ?_⟩
    · unfold GetEngineConnections
      exact List.mem_append_left _
        (List.mem_append_right _ (List.mem_map_of_mem _ hmemd))
    · have hfind : ((outputConnsOf (GetEngineConnections g ids)).find?
          (fun c => c.port_number
            == (toOutputConn g ((segmentOutputEdges g ids).dedup) e).port_number)).isSome
          = true :=
        List.find?_isSome.mpr ⟨_, hcmem, by simp⟩
      obtain ⟨cc, hcc⟩ := Option.isSome_iff_exists.mp hfind
      refine ⟨{ name := (kOutputPHName ++
                  toString ((toOutputConn g ((segmentOutputEdges g ids).dedup) e).port_number)),
                op := "Identity",
                input := [⟨cc.inside_node_name, cc.inside_port⟩] }, ?_, rfl, rfl⟩
      unfold ConvertSegmentToGraphDef
      dsimp only
      refine List.mem_append_right _ ?_
      unfold segmentIdentities
      rw [List.mem_filterMap]
      refine ⟨(toOutputConn g ((segmentOutputEdges g ids).dedup) e).port_number, ?_, ?_⟩
      · unfold segmentOutputPorts
        rw [List.mem_dedup]
        exact List.mem_map_of_mem _ hcmem
      · rw [hcc]
        rfl
  · rw [segment_body_filter g props names_l ids _ hph]
    exact segmentBody_topoSorted g names_l ids _ htopo hnames

/-- Witness for C2: the two-node segment of the example chain graph. -/
theorem convertSegmentToGraphDef_c2_witness :
    TopoSortedIds exampleGraph [1, 2]
    ∧ TopoSortedDefs exampleGraph
        (((ConvertSegmentToGraphDef exampleGraph { shapes := [] } ["B", "C"] [1, 2]
            (GetEngineConnections exampleGraph [1, 2])).2.1).node.filter
          (fun nd => ! nd.isBoundaryPH)) :=
  ⟨by decide,
   (convertSegmentToGraphDef_c2 exampleGraph { shapes := [] } ["B", "C"] [1, 2]
      (by decide) (by decide) (by decide)).2.2⟩

end TFTRT
